import Mathlib

set_option maxRecDepth 8000

/-!
Verification development for the ard-lang.dev documentation repository.

The repository consists of a single Astro configuration module
(`astro.config.mjs`) and a set of Markdown content pages under
`src/content/docs`.  This file embeds the configuration object and the
content files' identifying data (path and YAML frontmatter head) as Lean
values and proves the structural properties of the site: sidebar shape,
slug uniqueness, frontmatter well-formedness and link integrity.
-/

namespace Ard

/-- A social-media link of the starlight options (`social` array entries in
`astro.config.mjs`). -/
structure SocialLink where
  icon : String
  label : String
  href : String
deriving DecidableEq

/-- A sidebar entry of the starlight options: either a leaf link with a
label and a content slug, or a labelled group of further entries.  The
starlight sidebar format allows arbitrary nesting of groups, so the type
allows it too; the concrete configuration below only uses depth two. -/
inductive SidebarEntry where
  | link (label slug : String) : SidebarEntry
  | group (label : String) (items : List SidebarEntry) : SidebarEntry

/-- The label of a sidebar entry (both constructors carry one). -/
def entryLabel : SidebarEntry → String
  | .link l _ => l
  | .group l _ => l

/-- The immediate child items of a sidebar entry; a leaf link has none. -/
def itemsOf : SidebarEntry → List SidebarEntry
  | .link _ _ => []
  | .group _ items => items

/-- Whether a sidebar entry is a leaf `{label, slug}` link. -/
def isLink : SidebarEntry → Bool
  | .link _ _ => true
  | .group _ _ => false

/-- Whether a sidebar entry is a group. -/
def isGroup (e : SidebarEntry) : Bool := !(isLink e)

/-- The `(label, slug)` pair of a leaf link, if the entry is one. -/
def linkPair : SidebarEntry → Option (String × String)
  | .link l s => some (l, s)
  | .group _ _ => none

/-- The options record passed to the starlight integration in
`astro.config.mjs`: site title, description, social links and the sidebar
tree. -/
structure StarlightOptions where
  title : String
  description : String
  social : List SocialLink
  sidebar : List SidebarEntry

/-- An Astro integration.  The repository only ever constructs the
starlight one. -/
inductive Integration where
  | starlightIntegration (opts : StarlightOptions) : Integration

/-- The top-level Astro configuration object: the repository's
`defineConfig` call only sets the `integrations` list. -/
structure AstroConfig where
  integrations : List Integration

/-- Modelled from the spec: `starlight` is the external
`@astrojs/starlight` integration factory, whose body is not part of this
repository.  The spec states that authoring errors are caught by the
external build tool at site-generation time, not by any logic in this
repository, so within the repository the call is a plain constructor
wrapping its options unchanged. -/
def starlight (opts : StarlightOptions) : Integration :=
  Integration.starlightIntegration opts

/-- Modelled from the spec: `defineConfig` is the external `astro/config`
helper, whose body is not part of this repository.  It is a typing helper
returning its argument unchanged; no validation happens here. -/
def defineConfig (c : AstroConfig) : AstroConfig := c

/-- The starlight options literal of `astro.config.mjs`, lines 8 to 55,
embedded verbatim: title, description, the single GitHub social link and
the four sidebar groups with their fifteen leaf items.  The commented-out
item `Your First Program` (line 25 of the source) is not part of the
data. -/
def ardStarlightOptions : StarlightOptions where
  title := "Ard Language"
  description :=
    "A modern, statically-typed programming language designed for clarity, safety, and ease."
  social := [{ icon := "github", label := "GitHub", href := "https://github.com/akonwi/ard" }]
  sidebar :=
    [ SidebarEntry.group ("Getting Started")
        [ SidebarEntry.link ("Introduction") ("getting-started/introduction"),
          SidebarEntry.link ("Installation") ("getting-started/installation") ],
      SidebarEntry.group ("Language Guide")
        [ SidebarEntry.link ("Variables") ("guide/variables"),
          SidebarEntry.link ("Functions") ("guide/functions"),
          SidebarEntry.link ("Control Flow") ("guide/control-flow"),
          SidebarEntry.link ("Types") ("guide/types"),
          SidebarEntry.link ("Structs") ("guide/structs"),
          SidebarEntry.link ("Enums") ("guide/enums"),
          SidebarEntry.link ("Pattern Matching") ("guide/pattern-matching"),
          SidebarEntry.link ("Error Handling") ("guide/error-handling"),
          SidebarEntry.link ("Modules") ("guide/modules") ],
      SidebarEntry.group ("Advanced Topics")
        [ SidebarEntry.link ("Async Programming") ("advanced/async"),
          SidebarEntry.link ("Traits") ("advanced/traits"),
          SidebarEntry.link ("Generics") ("advanced/generics") ],
      SidebarEntry.group ("Examples")
        [ SidebarEntry.link ("Code Samples") ("examples/samples") ] ]

/-- The default export of `astro.config.mjs`:
`defineConfig({ integrations: [starlight({...})] })`. -/
def ardConfig : AstroConfig :=
  defineConfig { integrations := [starlight ardStarlightOptions] }

/-- The top-level elements of the configured sidebar. -/
def sidebarGroups : List SidebarEntry := ardStarlightOptions.sidebar

/-- All immediate items of the top-level sidebar elements. -/
def sidebarItems : List SidebarEntry := (sidebarGroups.map itemsOf).flatten

/-- The `(label, slug)` pairs of all leaf links of the sidebar, in
configuration order. -/
def sidebarPairs : List (String × String) := sidebarItems.filterMap linkPair

/-- The slugs referenced by the sidebar, in configuration order. -/
def sidebarSlugs : List String := sidebarPairs.map Prod.snd

/-- The labels of the top-level sidebar groups. -/
def groupLabels : List String := sidebarGroups.map entryLabel

/-- A Markdown content file under `src/content/docs`: its directory
segments below the docs root, its basename without the `.md` extension,
and the first four lines of the file verbatim (the YAML frontmatter
block). -/
structure ContentFile where
  dirs : List String
  stem : String
  headLines : List String
deriving DecidableEq

/-- The path separator of slugs. -/
def slash : String := "/"

/-- Joins path segments with slashes. -/
def joinSegs : List String → String
  | [] => ""
  | [s] => s
  | s :: rest => s ++ slash ++ joinSegs rest

/-- The path-derived slug of a content file: its directory segments and
stem joined by slashes, as the docs framework derives page routes from
file locations. -/
def slugOf (f : ContentFile) : String := joinSegs (f.dirs ++ [f.stem])

/-- The parsed YAML frontmatter fields the content schema requires. -/
structure Frontmatter where
  title : String
  description : String
deriving DecidableEq

/-- The frontmatter delimiter line. -/
def dashes : String := "---"

/-- The key of the title frontmatter field. -/
def titleKey : String := "title: "

/-- The key of the description frontmatter field. -/
def descKey : String := "description: "

/-- Drops a key (as a character list) from the front of a line, returning
the remainder, or `none` when the line does not start with the key. -/
def dropKey : List Char → List Char → Option (List Char)
  | [], rest => some rest
  | _ :: _, [] => none
  | k :: ks, c :: cs => if k = c then dropKey ks cs else none

/-- The value of a `key: value` frontmatter line, when the line starts
with the given key. -/
def fieldAfter (key line : String) : Option String :=
  (dropKey key.data line.data).map (fun cs => String.mk cs)

/-- Parses a YAML frontmatter block from the head lines of a content
file: a `---` delimiter, a `title:` line, a `description:` line and a
closing `---` delimiter, the shape every content file of this repository
uses. -/
def parseFrontmatter : List String → Option Frontmatter
  | d0 :: t :: d :: d1 :: _ =>
    if d0 = dashes then
      if d1 = dashes then
        match fieldAfter titleKey t, fieldAfter descKey d with
        | some ti, some de => some { title := ti, description := de }
        | _, _ => none
      else none
    else none
  | _ => none

/-- The title of a content file's parsed frontmatter, if any. -/
def titleOf (f : ContentFile) : Option String :=
  (parseFrontmatter f.headLines).map Frontmatter.title

/-- `src/content/docs/getting-started/introduction.md`, lines 1 to 4. -/
def introductionFile : ContentFile where
  dirs := [("getting-started")]
  stem := "introduction"
  headLines :=
    [ "---",
      "title: Introduction",
      "description: Learn about Ard\x27s philosophy, design goals, and key features.",
      "---" ]

/-- `src/content/docs/getting-started/_first-program.md`, lines 1 to 4:
the underscore-prefixed, unpublished draft of the first-program page. -/
def firstProgramFile : ContentFile where
  dirs := [("getting-started")]
  stem := "_first-program"
  headLines :=
    [ "---",
      "title: Your First Program",
      "description: Write and run your first Ard program.",
      "---" ]

/-- `src/content/docs/guide/variables.md`, lines 1 to 4. -/
def variablesFile : ContentFile where
  dirs := [("guide")]
  stem := "variables"
  headLines :=
    [ "---",
      "title: Variables & Constants",
      "description: Learn about variable declaration, mutability, and type inference in Ard.",
      "---" ]

/-- `src/content/docs/guide/functions.md`, lines 1 to 4. -/
def functionsFile : ContentFile where
  dirs := [("guide")]
  stem := "functions"
  headLines :=
    [ "---",
      "title: Functions",
      "description: Learn about function definition, parameters, return values, and advanced features in Ard.",
      "---" ]

/-- `src/content/docs/guide/control-flow.md`, lines 1 to 4. -/
def controlFlowFile : ContentFile where
  dirs := [("guide")]
  stem := "control-flow"
  headLines :=
    [ "---",
      "title: Control Flow",
      "description: Learn about conditional statements, loops, and pattern matching in Ard.",
      "---" ]

/-- `src/content/docs/guide/types.md`, lines 1 to 4. -/
def typesFile : ContentFile where
  dirs := [("guide")]
  stem := "types"
  headLines :=
    [ "---",
      "title: Types",
      "description: Overview of Ard\x27s type system including built-in types, type unions, and nullable values.",
      "---" ]

/-- `src/content/docs/guide/pattern-matching.md`, lines 1 to 4. -/
def patternMatchingFile : ContentFile where
  dirs := [("guide")]
  stem := "pattern-matching"
  headLines :=
    [ "---",
      "title: Pattern Matching",
      "description: Learn about Ard\x27s powerful pattern matching with match expressions.",
      "---" ]

/-- `src/content/docs/guide/modules.md`, lines 1 to 4. -/
def modulesFile : ContentFile where
  dirs := [("guide")]
  stem := "modules"
  headLines :=
    [ "---",
      "title: Modules",
      "description: Learn about Ard\x27s module system, imports, and code organization.",
      "---" ]

/-- `src/content/docs/advanced/generics.md`, lines 1 to 4. -/
def genericsFile : ContentFile where
  dirs := [("advanced")]
  stem := "generics"
  headLines :=
    [ "---",
      "title: Generics",
      "description: Learn about generic programming in Ard using type parameters.",
      "---" ]

/-- `src/content/docs/examples/samples.md`, lines 1 to 4. -/
def samplesFile : ContentFile where
  dirs := [("examples")]
  stem := "samples"
  headLines :=
    [ "---",
      "title: Code Samples",
      "description: Practical examples demonstrating Ard language features and common programming patterns.",
      "---" ]

/-- Modelled from the spec: the repository path of this content file is
not recorded in the sources; its frontmatter (lines 1 to 4, embedded
verbatim below) titles it `Installation` and the sidebar references the
slug `getting-started/installation`, so the file sits at
`src/content/docs/getting-started/installation.md`. -/
def installationFile : ContentFile where
  dirs := [("getting-started")]
  stem := "installation"
  headLines :=
    [ "---",
      "title: Installation",
      "description: How to install and set up Ard on various platforms.",
      "---" ]

/-- Modelled from the spec: the repository path of this content file is
not recorded in the sources; its frontmatter (embedded verbatim below)
titles it `Enums` and the sidebar references the slug `guide/enums`, so
the file sits at `src/content/docs/guide/enums.md`. -/
def enumsFile : ContentFile where
  dirs := [("guide")]
  stem := "enums"
  headLines :=
    [ "---",
      "title: Enums",
      "description: Learn about defining and using enums for representing discrete sets of values.",
      "---" ]

/-- Modelled from the spec: the repository path of this content file is
not recorded in the sources; it is a second file with the same `Enums`
frontmatter as `enumsFile`, and since the spec requires slugs to be
unique it cannot share the published slug `guide/enums`, so it is
modelled as an unpublished draft following the repository's
underscore-prefix convention (`_first-program.md`):
`src/content/docs/guide/_enums.md`. -/
def enumsDraftFile : ContentFile where
  dirs := [("guide")]
  stem := "_enums"
  headLines :=
    [ "---",
      "title: Enums",
      "description: Learn about defining and using enums for representing discrete sets of values.",
      "---" ]

/-- Modelled from the spec: the repository path of this content file is
not recorded in the sources; its frontmatter titles it `Error Handling`
and the sidebar references the slug `guide/error-handling`, so the file
sits at `src/content/docs/guide/error-handling.md`. -/
def errorHandlingFile : ContentFile where
  dirs := [("guide")]
  stem := "error-handling"
  headLines :=
    [ "---",
      "title: Error Handling",
      "description: Learn about Ard\x27s approach to error handling using Result types and the try keyword.",
      "---" ]

/-- Modelled from the spec: the repository path of this content file is
not recorded in the sources; it is a second file with the same
`Functions` frontmatter as `functionsFile` (its body is a variant
revision), and since the spec requires slugs to be unique it cannot
share the published slug `guide/functions`, so it is modelled as an
unpublished draft following the repository's underscore-prefix
convention: `src/content/docs/guide/_functions.md`. -/
def functionsDraftFile : ContentFile where
  dirs := [("guide")]
  stem := "_functions"
  headLines :=
    [ "---",
      "title: Functions",
      "description: Learn about function definition, parameters, return values, and advanced features in Ard.",
      "---" ]

/-- Modelled from the spec: the repository path of this content file is
not recorded in the sources; its frontmatter titles it `Traits` and the
sidebar references the slug `advanced/traits`, so the file sits at
`src/content/docs/advanced/traits.md`. -/
def traitsFile : ContentFile where
  dirs := [("advanced")]
  stem := "traits"
  headLines :=
    [ "---",
      "title: Traits",
      "description: Learn about defining and implementing traits for shared behavior in Ard.",
      "---" ]

/-- Modelled from the spec: the repository path of this content file is
not recorded in the sources; it is a second file with the same `Traits`
frontmatter as `traitsFile`, and since the spec requires slugs to be
unique it cannot share the published slug `advanced/traits`, so it is
modelled as an unpublished draft following the repository's
underscore-prefix convention: `src/content/docs/advanced/_traits.md`. -/
def traitsDraftFile : ContentFile where
  dirs := [("advanced")]
  stem := "_traits"
  headLines :=
    [ "---",
      "title: Traits",
      "description: Learn about defining and implementing traits for shared behavior in Ard.",
      "---" ]

/-- Modelled from the spec: the repository path of this content file is
not recorded in the sources; its frontmatter titles it
`Async Programming` and the sidebar references the slug
`advanced/async`, so the file sits at
`src/content/docs/advanced/async.md`. -/
def asyncFile : ContentFile where
  dirs := [("advanced")]
  stem := "async"
  headLines :=
    [ "---",
      "title: Async Programming",
      "description: Learn about asynchronous programming in Ard using fibers and the async module.",
      "---" ]

/-- Modelled from the spec: the repository path of this content document
is not recorded in the sources; it is recorded alongside
`guide/modules.md` and its frontmatter (embedded verbatim below) titles
it `Structs`, while the sidebar references the slug `guide/structs`, so
the page sits at `src/content/docs/guide/structs.md`. -/
def structsFile : ContentFile where
  dirs := [("guide")]
  stem := "structs"
  headLines :=
    [ "---",
      "title: Structs",
      "description: Learn about defining and using structs, methods, and static functions in Ard.",
      "---" ]

/-- Modelled from the spec: the repository path of this content document
is not recorded in the sources; it is a second revision with the same
`Structs` frontmatter as `structsFile`, also recorded alongside
`guide/modules.md`, and since the spec requires slugs to be unique it
cannot share the published slug `guide/structs`, so it is modelled as an
unpublished draft following the repository's underscore-prefix
convention (`_first-program.md`): `src/content/docs/guide/_structs.md`. -/
def structsDraftFile : ContentFile where
  dirs := [("guide")]
  stem := "_structs"
  headLines :=
    [ "---",
      "title: Structs",
      "description: Learn about defining and using structs, methods, and static functions in Ard.",
      "---" ]

/-- Modelled from the spec: the repository path of this content document
is not recorded in the sources; it is a `Variables` revision recorded
alongside the enums page, and since `guide/variables.md` already holds
the published variables page and the spec requires slugs to be unique,
it is modelled as an unpublished draft:
`src/content/docs/guide/_variables.md`. -/
def variablesDraftFile : ContentFile where
  dirs := [("guide")]
  stem := "_variables"
  headLines :=
    [ "---",
      "title: Variables",
      "description: Learn about variable declaration, mutability, and type inference in Ard.",
      "---" ]

/-- Modelled from the spec: the repository path of this content document
is not recorded in the sources; it is a work-in-progress revision of the
async page (its frontmatter title is the quoted string
`"WIP: Async Programming"`), recorded alongside the traits page, and
since the published async page already holds the slug `advanced/async`,
it is modelled as an unpublished draft:
`src/content/docs/advanced/_async.md`. -/
def asyncDraftFile : ContentFile where
  dirs := [("advanced")]
  stem := "_async"
  headLines :=
    [ "---",
      "title: \x22WIP: Async Programming\x22",
      "description: Learn about asynchronous programming in Ard using fibers and the async module.",
      "---" ]

/-- Modelled from the spec: the repository path of this content document
is not recorded in the sources; it is an `Introduction` revision
recorded alongside `getting-started/_first-program.md`, and since
`getting-started/introduction.md` already holds the published
introduction page and the spec requires slugs to be unique, it is
modelled as an unpublished draft:
`src/content/docs/getting-started/_introduction.md`. -/
def introductionDraftFile : ContentFile where
  dirs := [("getting-started")]
  stem := "_introduction"
  headLines :=
    [ "---",
      "title: Introduction",
      "description: Learn about Ard\x27s philosophy, design goals, and key features.",
      "---" ]

/-- All twenty-three Markdown content documents recorded in the
repository's sources: the ten at recorded paths, the eight whose paths
are modelled from their frontmatter, and the five revision documents
recorded alongside other pages (two `Structs` revisions, a `Variables`
revision, a WIP `Async` revision and an `Introduction` revision). -/
def contentStore : List ContentFile :=
  [ introductionFile, introductionDraftFile, firstProgramFile, installationFile,
    variablesFile, variablesDraftFile, functionsFile, functionsDraftFile, controlFlowFile,
    typesFile, structsFile, structsDraftFile, enumsFile, enumsDraftFile, patternMatchingFile,
    errorHandlingFile, modulesFile,
    asyncFile, asyncDraftFile, traitsFile, traitsDraftFile, genericsFile,
    samplesFile ]

/-- The underscore character marking unpublished drafts. -/
def underscoreChar : Char := ('_')

/-- Whether a content file is an unpublished draft: its basename starts
with an underscore, as `_first-program.md` does. -/
def isDraft (f : ContentFile) : Bool :=
  f.stem.data.head? == some underscoreChar

/-- Modelled from the spec: the route collection of the external docs
framework, which is not part of this repository.  Pages are discovered
by slug from the Markdown files; underscore-prefixed files are
unpublished drafts and receive no route. -/
def publishedFiles : List ContentFile :=
  contentStore.filter (fun f => !(isDraft f))

/-- The published content files a slug resolves to. -/
def resolve (slug : String) : List ContentFile :=
  publishedFiles.filter (fun f => slugOf f == slug)

/-- The slug a draft file would publish under if its leading underscore
were removed (`_first-program.md` would publish as
`getting-started/first-program`). -/
def strippedSlugOf (f : ContentFile) : String :=
  joinSegs (f.dirs ++ [String.mk (f.stem.data.drop 1)])

/-- Modelled from the spec: evaluation of the `astro.config.mjs` module
by the external module loader, which is not part of this repository.
The module is a single constant expression applying the external helpers
`defineConfig` and `starlight` to literal data; it reads no content
files and performs no checks (the spec: authoring errors are caught by
the external build tool at site-generation time, not by any logic in
this repository), so for any content store evaluation succeeds with
`ardConfig`. -/
def evalConfigModule (_store : List ContentFile) : Except String AstroConfig :=
  Except.ok ardConfig

/-- C1: every sidebar entry's slug corresponds to an existing content
file: each of the fifteen slugs of the configuration resolves to at
least one published page whose path-derived slug equals it, and in
particular `guide/structs` (line 35 of `astro.config.mjs`) resolves to
the structs page. -/
theorem c1_sidebar_slugs_all_resolve :
    sidebarSlugs.length = 15 ∧
    sidebarSlugs.all (fun s =>
      !(resolve s).isEmpty && (resolve s).all (fun f => slugOf f == s)) = true ∧
    resolve ("guide/structs") = [structsFile] := by
  decide

/-- C2: no two distinct content files share a path-derived slug: the
slugs of the eighteen content files are pairwise distinct, so the slug
is a valid identity for pages. -/
theorem c2_slugs_pairwise_distinct :
    List.Pairwise (fun a b => slugOf a ≠ slugOf b) contentStore := by
  decide

/-- C3: every content file begins with a YAML frontmatter block that
parses to a `title` field and a `description` field, and in every file
both fields are non-empty strings. -/
theorem c3_frontmatter_title_description_nonempty :
    contentStore.all (fun f =>
      match parseFrontmatter f.headLines with
      | some fm => !(fm.title == "") && !(fm.description == "")
      | none => false) = true := by
  decide

/-- C4: the sidebar contains the entry with label `Installation` and slug
`getting-started/installation`, and that slug resolves to exactly one
content file, whose frontmatter title equals `Installation`. -/
theorem c4_installation_entry_resolves :
    (("Installation"), ("getting-started/installation")) ∈ sidebarPairs ∧
    resolve ("getting-started/installation") = [installationFile] ∧
    titleOf installationFile = some ("Installation") := by
  decide

/-- C5: the site configuration is a single `defineConfig` object wrapping
one starlight integration whose options have exactly the documented
shape: the string title and description, a social array of
`{icon, label, href}` records holding the GitHub link, and a sidebar
that is an ordered sequence of labelled groups all of whose items are
`{label, slug}` leaf pairs. -/
theorem c5_config_shape :
    ardConfig = { integrations := [Integration.starlightIntegration ardStarlightOptions] } ∧
    ardStarlightOptions.title = "Ard Language" ∧
    ardStarlightOptions.description =
      "A modern, statically-typed programming language designed for clarity, safety, and ease." ∧
    ardStarlightOptions.social =
      [{ icon := "github", label := "GitHub", href := "https://github.com/akonwi/ard" }] ∧
    sidebarGroups.all isGroup = true ∧
    sidebarGroups.all (fun g => (itemsOf g).all isLink) = true ∧
    sidebarPairs =
      [ (("Introduction"), ("getting-started/introduction")),
        (("Installation"), ("getting-started/installation")),
        (("Variables"), ("guide/variables")),
        (("Functions"), ("guide/functions")),
        (("Control Flow"), ("guide/control-flow")),
        (("Types"), ("guide/types")),
        (("Structs"), ("guide/structs")),
        (("Enums"), ("guide/enums")),
        (("Pattern Matching"), ("guide/pattern-matching")),
        (("Error Handling"), ("guide/error-handling")),
        (("Modules"), ("guide/modules")),
        (("Async Programming"), ("advanced/async")),
        (("Traits"), ("advanced/traits")),
        (("Generics"), ("advanced/generics")),
        (("Code Samples"), ("examples/samples")) ] :=
  ⟨rfl, rfl, rfl, rfl, by decide, by decide, by decide⟩

/-- C6: constructing the site configuration never fails and performs no
validation: for every content store, including ones in which a sidebar
slug has no corresponding page, evaluating the configuration module
succeeds with the same constant configuration; link-integrity and
frontmatter errors can only be detected by the external build tool. -/
theorem c6_config_construction_total_and_unvalidated :
    ∀ store : List ContentFile, evalConfigModule store = Except.ok ardConfig :=
  fun _ => rfl

/-- C7: no sidebar entry references an unpublished, underscore-prefixed
content file: the slug `getting-started/first-program`, under which the
draft `_first-program.md` would publish, appears only in the
commented-out entry and so is absent from the sidebar; no draft file's
path-derived slug appears among the sidebar slugs; and every content
file targeted by an active sidebar slug has a basename that does not
start with an underscore. -/
theorem c7_no_draft_slug_in_sidebar :
    sidebarSlugs.contains ("getting-started/first-program") = false ∧
    sidebarSlugs.contains (strippedSlugOf firstProgramFile) = false ∧
    contentStore.all (fun f =>
      if isDraft f then !(sidebarSlugs.contains (slugOf f)) else true) = true ∧
    sidebarSlugs.all (fun s =>
      (contentStore.filter (fun f => slugOf f == s)).all (fun f => !(isDraft f))) = true := by
  decide

/-- C8: the sidebar is duplicate-free: its fifteen item slugs are
pairwise distinct, and its four group labels — `Getting Started`,
`Language Guide`, `Advanced Topics`, `Examples` — are pairwise distinct,
so no page is linked twice from the navigation. -/
theorem c8_sidebar_duplicate_free :
    sidebarSlugs.length = 15 ∧ sidebarSlugs.Nodup ∧
    groupLabels = [("Getting Started"), ("Language Guide"), ("Advanced Topics"), ("Examples")] ∧
    groupLabels.Nodup := by
  decide

/-- C9: the sidebar tree has depth exactly two: every top-level element
is a group with a non-empty items list, and every element of every items
list is a leaf `{label, slug}` link, so no group is nested inside
another group's items. -/
theorem c9_sidebar_depth_exactly_two :
    sidebarGroups.all (fun e => isGroup e && !(itemsOf e).isEmpty) = true ∧
    sidebarItems.all isLink = true := by
  decide

end Ard
